import Mathlib

/-!
# Video DDS publisher: start-up logic of `VideoDDSpublisher`

A shallow embedding of `src/projects/VideoDDSPublisher/videoddspublisher.cpp`.

* The member variables of `VideoDDSpublisher` become a record that is passed
  explicitly; setters return the updated record.
* `initDDS` is a function of the outcome of the DDS calls inside its `try`
  block: either they all return, or one of them throws.
* `initGstreamer` builds a description of the four bins.  What the GStreamer
  registry contains is an input (`Env.factoryAvailable`), and so is what the
  device probe and the capability query answer (`Env.probe`, `Env.caps`).
  The source tests the result of `gst_element_factory_find` only; the results
  of `gst_element_factory_make` are used untested, and the embedding follows
  the source there: such a call yields an element of the named factory.
  The same holds for `gst_element_factory_create` on a factory that was found.
  Every registry call is recorded in the order the source issues it.
* Elements are values here, not pointers: where the source adds an element to
  a bin and sets its properties through the pointer afterwards, the embedding
  sets the properties first and adds the finished element; the bins described
  are the same.
* The preview widget (`VideoWidgetPainterGst`) and the log handler set up at
  the top of `initGstreamer` carry no data any property below reads and are
  left out.
-/

namespace Voda

/-! ## GStreamer data -/

/-- Value of one field of a caps structure (`G_TYPE_INT`, `G_TYPE_STRING`,
`GST_TYPE_FRACTION`). -/
inductive CapsValue where
  | int (v : Int)
  | str (s : String)
  | fraction (num den : Int)
  deriving DecidableEq, Repr

/-- Result of `gst_caps_new_simple`: a media type and its fields, in the
order they are given. -/
structure GstCaps where
  mediaType : String
  fields : List (String × CapsValue)
  deriving DecidableEq, Repr

/-- Builder with the argument order of the C function. -/
def gst_caps_new_simple (mediaType : String) (fields : List (String × CapsValue)) : GstCaps :=
  { mediaType := mediaType, fields := fields }

/-- Value handed to `g_object_set`, tagged with the C type written in the
source (`gint`, `gint64`, `guint`, `gboolean`, a string, a `GstCaps*`); a bare
integer literal is `gint`, a bare `true`/`false` is `gboolean`. -/
inductive PropValue where
  | gint (v : Int)
  | gint64 (v : Int)
  | guint (v : Nat)
  | gboolean (b : Bool)
  | caps (c : GstCaps)
  deriving DecidableEq, Repr

/-- An element: the factory it was made from, the properties set on it (in
the order set) and the signal handlers connected to it. -/
structure GstElement where
  factory : String
  props : List (String × PropValue)
  signals : List (String × String)
  deriving DecidableEq, Repr

/-- Fresh element of a factory, nothing set. -/
def GstElement.new (factory : String) : GstElement :=
  { factory := factory, props := [], signals := [] }

/-- Variadic `g_object_set`: the listed properties are set in order. -/
def g_object_set (e : GstElement) (ps : List (String × PropValue)) : GstElement :=
  { e with props := e.props ++ ps }

/-- Connect a handler to a signal of the element (`g_signal_connect`). -/
def g_signal_connect (e : GstElement) (signal handler : String) : GstElement :=
  { e with signals := e.signals ++ [(signal, handler)] }

/-- Current value of a property: the last one set under that name. -/
def GstElement.prop? (e : GstElement) (name : String) : Option PropValue :=
  (e.props.reverse.find? (fun kv => kv.1 == name)).map (fun kv => kv.2)

/-- A bin: its name, the elements added (in order) and the links made
between them (source factory, destination factory). -/
structure GstBin where
  name : String
  elements : List GstElement
  links : List (String × String)
  deriving DecidableEq, Repr

/-- Empty bin of the given name (`gst_bin_new`). -/
def gst_bin_new (name : String) : GstBin :=
  { name := name, elements := [], links := [] }

/-- Add an element to a bin (`gst_bin_add`). -/
def gst_bin_add (b : GstBin) (e : GstElement) : GstBin :=
  { b with elements := b.elements ++ [e] }

/-- Link two elements of the bin (`gst_element_link`). -/
def gst_element_link (b : GstBin) (src dst : GstElement) : GstBin :=
  { b with links := b.links ++ [(src.factory, dst.factory)] }

/-- The element of the bin made from the given factory, if any (first one
added). -/
def GstBin.element? (b : GstBin) (factory : String) : Option GstElement :=
  b.elements.find? (fun e => e.factory == factory)

/-- Registry calls made by `initGstreamer`, recorded in program order. -/
inductive GstCall where
  | factoryFind (name : String)
  | factoryCreate (name : String)
  | factoryMake (name : String)
  deriving DecidableEq, Repr

/-- A run of GStreamer set-up code: the registry calls it made, and either
the value it produced or the message of the exception it threw. -/
structure GstRun (α : Type) where
  calls : List GstCall
  result : Except String α

/-- A run that makes no call and returns. -/
def GstRun.ret {α : Type} (a : α) : GstRun α :=
  { calls := [], result := .ok a }

/-- Sequencing: the second part runs only if the first did not throw. -/
def GstRun.bind {α β : Type} (r : GstRun α) (f : α → GstRun β) : GstRun β :=
  match r.result with
  | .error msg => { calls := r.calls, result := .error msg }
  | .ok a => { calls := r.calls ++ (f a).calls, result := (f a).result }

/-- The call `gst_element_factory_make(name, nullptr)`. -/
def gst_element_factory_make (name : String) : GstRun GstElement :=
  { calls := [.factoryMake name], result := .ok (GstElement.new name) }

/-! ## DDS data -/

/-- Ownership kinds of the DDS `Ownership` policy. -/
inductive OwnershipKind where
  | shared
  | exclusive
  deriving DecidableEq, Repr

/-- Kinds of the DDS `Liveliness` policy. -/
inductive LivelinessKind where
  | automatic
  | manualByParticipant
  | manualByTopic
  deriving DecidableEq, Repr

/-- A `dds::core::Duration`. -/
inductive Duration where
  | millisecs (ms : Nat)
  | infinite
  deriving DecidableEq, Repr

/-- The policies of a data-writer QoS that `initDDS` touches. -/
structure DataWriterQos where
  ownershipStrength : Int
  autoDisposeUnregisteredInstances : Bool
  ownership : OwnershipKind
  livelinessKind : LivelinessKind
  livelinessLease : Duration
  deriving DecidableEq, Repr

/-- A created data writer: the topic it writes and its QoS. -/
structure DataWriter where
  topicName : String
  qos : DataWriterQos
  deriving DecidableEq, Repr

/-- How the DDS calls in the `try` block of `initDDS` end: all return, or one
throws an exception of one of the caught kinds (with its `what()` text). -/
inductive DdsOutcome where
  | ok
  | outOfResourcesError (what : String)
  | invalidArgumentError (what : String)
  | nullReferenceError (what : String)
  | error (what : String)
  | otherException
  deriving DecidableEq, Repr

/-! ## Capability sets -/

/-- Modelled from the spec: `CapabilitySelection` (cameracapabilities.h) is not
among the sources.  One entry of the capability set a source advertises: pixel
format, size and frame rate. -/
structure CapEntry where
  pixelFormat : String
  width : Nat
  height : Nat
  frameRateNum : Nat
  frameRateDen : Nat
  deriving DecidableEq, Repr

/-- Pixel area of an entry. -/
def CapEntry.area (e : CapEntry) : Nat := e.width * e.height

/-- A frame rate as numerator and denominator. -/
structure FrameRate where
  num : Nat
  den : Nat
  deriving DecidableEq, Repr

/-- Frame rate of an entry. -/
def CapEntry.frameRate (e : CapEntry) : FrameRate :=
  { num := e.frameRateNum, den := e.frameRateDen }

/-- Strict comparison of two rates as rational numbers (cross
multiplication, no truncation). -/
def FrameRate.lt (a b : FrameRate) : Bool := decide (a.num * b.den < b.num * a.den)

/-- Equality of two rates as rational numbers. -/
def FrameRate.eq (a b : FrameRate) : Bool := decide (a.num * b.den = b.num * a.den)

/-- Modelled from the spec: the caps `CapabilitySelection::highestRawArea`
returns request exactly the entry chosen. -/
def CapEntry.toCaps (e : CapEntry) : GstCaps :=
  gst_caps_new_simple "video/x-raw"
    [("format", .str e.pixelFormat),
     ("width", .int e.width),
     ("height", .int e.height),
     ("framerate", .fraction e.frameRateNum e.frameRateDen)]

/-- Frame rate of an entry as a rational number. -/
def CapEntry.rate (e : CapEntry) : ℚ := (e.frameRateNum : ℚ) / (e.frameRateDen : ℚ)

/-- Modelled from the spec: one step of the frame-rate scan of
`CapabilitySelection::highestRawFrameRate`.  The first entry sets the rate
kept, a later entry replaces it only when its rate is strictly higher. -/
def rateStep (best : Option FrameRate) (e : CapEntry) : Option FrameRate :=
  match best with
  | none => some e.frameRate
  | some r => if r.lt e.frameRate then some e.frameRate else some r

/-- Modelled from the spec: `CapabilitySelection::highestRawFrameRate`
(cameracapabilities.h) is not among the sources.  One pass over the
capability set that keeps the highest frame rate seen so far, rates compared
as rational numbers; an empty set is the error `NoCapabilitiesAvailable`. -/
def highestRawFrameRate (caps : List CapEntry) : Except String FrameRate :=
  match caps.foldl rateStep none with
  | none => .error "NoCapabilitiesAvailable"
  | some r => .ok r

/-- Modelled from the spec: one step of the area scan of
`CapabilitySelection::highestRawArea`.  Entries at another frame rate are
skipped; the first entry at the rate is kept, a later one replaces it only
when its area is strictly larger. -/
def areaStep (framerate : FrameRate) (best : Option CapEntry) (e : CapEntry) :
    Option CapEntry :=
  if e.frameRate.eq framerate then
    match best with
    | none => some e
    | some b => if b.area < e.area then some e else some b
  else best

/-- Modelled from the spec: `CapabilitySelection::highestRawArea`
(cameracapabilities.h) is not among the sources.  One pass over the
capability set that looks only at the entries whose frame rate equals the
given one and keeps the entry of largest `width*height`; an entry replaces
the one kept only when its area is strictly larger, so the first of several
equal ones stays.  No entry at that rate is `NoCapabilitiesAvailable`. -/
def highestRawArea (caps : List CapEntry) (framerate : FrameRate) : Except String CapEntry :=
  match caps.foldl (areaStep framerate) none with
  | none => .error "NoCapabilitiesAvailable"
  | some e => .ok e

/-- What the frame-rate scan holds after a pass over `l`: nothing exactly when
`l` is empty, otherwise the rate of an entry of `l` that no entry exceeds. -/
def RateScanInv (l : List CapEntry) : Option FrameRate → Prop
  | none => l = []
  | some r => ∃ e ∈ l, e.frameRate = r ∧ ∀ x ∈ l, x.rate ≤ e.rate

/-- What the area scan at rate `r` holds after a pass over `l`: nothing when
no entry of `l` is at the rate, otherwise an entry of `l` at the rate such that
every earlier entry at the rate has strictly smaller area and no later one has
larger area. -/
def AreaScanInv (r : FrameRate) (l : List CapEntry) : Option CapEntry → Prop
  | none => ∀ x ∈ l, x.frameRate.eq r = false
  | some e => ∃ pre post, l = pre ++ e :: post ∧ e.frameRate.eq r = true ∧
      (∀ x ∈ pre, x.frameRate.eq r = true → x.area < e.area) ∧
      (∀ x ∈ post, x.frameRate.eq r = true → x.area ≤ e.area)

/-! ## Source selection -/

/-- Modelled from the spec: the constructor of `ElementSelection`
(elements.h) is not among the sources.  The candidates are tried in order;
the first one that the device probe can instantiate is returned and later
ones are not tried; if none can be instantiated the selection fails. -/
def elementSelection (probe : String → Bool) : List String → Except String String
  | [] => .error "DeviceUnavailable"
  | c :: rest => if probe c then .ok c else elementSelection probe rest

/-! ## The publisher -/

/-- Modelled from the spec: `PipelineDDS` (pipelinedds.h) is not among the
sources.  The record keeps what the calls made on it by `initGstreamer`
handed over: the pipeline name, the four bins, whether the pipeline was
linked, the data writer, and whether it was started. -/
structure PipelineDDS where
  name : Option String
  srcBinI : Option GstBin
  sinkBinMainI : Option GstBin
  sinkBinMainII : Option GstBin
  sinkBinSecondary : Option GstBin
  linked : Bool
  dataWriter : Option DataWriter
  started : Bool
  deriving DecidableEq, Repr

/-- The object made by `new PipelineDDS()`. -/
def PipelineDDS.new : PipelineDDS :=
  { name := none, srcBinI := none, sinkBinMainI := none, sinkBinMainII := none,
    sinkBinSecondary := none, linked := false, dataWriter := none, started := false }

/-- Member variables of `VideoDDSpublisher`; a null pointer or a null data
writer is `none`. -/
structure VideoDDSpublisher where
  m_pipeline : Option PipelineDDS
  m_dataWriter : Option DataWriter
  m_useTestSrc : Bool
  m_useOmx : Bool
  m_useFixedCaps : Bool
  m_strength : Int
  deriving DecidableEq, Repr

/-- The constructor's member initialisers. -/
def VideoDDSpublisher.new : VideoDDSpublisher :=
  { m_pipeline := none, m_dataWriter := none, m_useTestSrc := false,
    m_useOmx := false, m_useFixedCaps := false, m_strength := 0 }

namespace VideoDDSpublisher

/-- Getter `useTestSrc()`. -/
def useTestSrc (p : VideoDDSpublisher) : Bool := p.m_useTestSrc

/-- Setter `setUseTestSrc`. -/
def setUseTestSrc (p : VideoDDSpublisher) (useTestSrc : Bool) : VideoDDSpublisher :=
  { p with m_useTestSrc := useTestSrc }

/-- Getter `useOmx()`. -/
def useOmx (p : VideoDDSpublisher) : Bool := p.m_useOmx

/-- Setter `setUseOmx`. -/
def setUseOmx (p : VideoDDSpublisher) (useOmx : Bool) : VideoDDSpublisher :=
  { p with m_useOmx := useOmx }

/-- Setter `setUseFixedCaps`. -/
def setUseFixedCaps (p : VideoDDSpublisher) (useFixedCaps : Bool) : VideoDDSpublisher :=
  { p with m_useFixedCaps := useFixedCaps }

/-- Getter `strength()`. -/
def strength (p : VideoDDSpublisher) : Int := p.m_strength

/-- Setter `setStrength`. -/
def setStrength (p : VideoDDSpublisher) (strength : Int) : VideoDDSpublisher :=
  { p with m_strength := strength }

end VideoDDSpublisher

/-- What the world outside the program answers during start-up. -/
structure Env where
  /-- How the DDS calls of `initDDS` end. -/
  ddsOutcome : DdsOutcome
  /-- The value of `topic.qos()` read as a data-writer QoS, before `initDDS`
  sets its own policies. -/
  topicQos : DataWriterQos
  /-- Whether the device probe can instantiate a source of this kind. -/
  probe : String → Bool
  /-- The capability set the selected source advertises on its `src` pad. -/
  caps : String → List CapEntry
  /-- Whether `gst_element_factory_find` finds a factory of this name. -/
  factoryAvailable : String → Bool

/-! ## `initDDS` -/

/-- The data-writer QoS of `initDDS`: `topic.qos()` with the four policies
streamed into it, in source order. -/
def dataWriterQos (topicQos : DataWriterQos) (m_strength : Int) : DataWriterQos :=
  let dwqos := topicQos
  let dwqos := { dwqos with ownershipStrength := m_strength }
  let dwqos := { dwqos with autoDisposeUnregisteredInstances := true }
  let dwqos := { dwqos with ownership := OwnershipKind.exclusive }
  let dwqos := { dwqos with livelinessKind := LivelinessKind.manualByTopic,
                            livelinessLease := Duration.millisecs 1000 }
  dwqos

/-- Outcome of `initDDS`: the publisher afterwards and the `qCritical` lines
written.  The function returns normally on every path: each `catch` clause
only logs. -/
def initDDS (p : VideoDDSpublisher) (env : Env) (topicName : String) :
    VideoDDSpublisher × List String :=
  match env.ddsOutcome with
  | .ok =>
    let dwqos := dataWriterQos env.topicQos p.m_strength
    let writer : DataWriter := { topicName := topicName, qos := dwqos }
    ({ p with m_dataWriter := some writer }, [])
  | .outOfResourcesError what => (p, ["DDS OutOfResourcesError: " ++ what])
  | .invalidArgumentError what => (p, ["DDS InvalidArgumentError: " ++ what])
  | .nullReferenceError what => (p, ["DDS NullReferenceError: " ++ what])
  | .error what => (p, ["DDS Error: " ++ what])
  | .otherException => (p, ["DDS initialization failed with unhandled exeption"])

/-! ## `initGstreamer` -/

/-- The candidate list built at the top of `initGstreamer`. -/
def sourceCanditates (m_useTestSrc : Bool) : List String :=
  let sourceCanditates : List String := []
  let sourceCanditates :=
    if !m_useTestSrc then (sourceCanditates ++ ["ksvideosrc"]) ++ ["v4l2src"]
    else sourceCanditates
  sourceCanditates ++ ["videotestsrc"]

/-- The caps of the fixed override (first branch). -/
def fixedCaps : GstCaps :=
  gst_caps_new_simple "video/x-raw"
    [("width", .int 640), ("height", .int 480), ("framerate", .fraction 30 1)]

/-- The caps used with the test source (second branch). -/
def testSourceCaps : GstCaps :=
  gst_caps_new_simple "video/x-raw"
    [("format", .str "I420"), ("width", .int 640), ("height", .int 480),
     ("framerate", .fraction 30 1)]

/-- The three-way choice of `capsFilter`, given the flags, the name of the
selected source element and the capability set queried from its pad. -/
def negotiateCaps (m_useFixedCaps m_useTestSrc : Bool) (elementName : String)
    (caps : List CapEntry) : Except String GstCaps :=
  if m_useFixedCaps then
    .ok fixedCaps
  else if m_useTestSrc || elementName == "videotestsrc" then
    .ok testSourceCaps
  else
    match highestRawFrameRate caps with
    | .error msg => .error msg
    | .ok framerate =>
      match highestRawArea caps framerate with
      | .error msg => .error msg
      | .ok e => .ok e.toCaps

/-- The source bin for a selected source element and the capability set
queried from its pad: the source, the caps filter carrying `capsFilter`, and
the converter, linked in that order. -/
def buildSourceBin (p : VideoDDSpublisher) (elementName : String) (caps : List CapEntry) :
    GstRun GstBin :=
  let source := GstElement.new elementName
  match negotiateCaps p.m_useFixedCaps p.m_useTestSrc elementName caps with
  | .error msg => { calls := [], result := .error msg }
  | .ok capsFilter =>
    let sourceBin := gst_bin_new "sourceBin"
    let sourceBin := gst_bin_add sourceBin source
    (gst_element_factory_make "capsfilter").bind fun filter =>
    let filter := g_object_set filter [("caps", .caps capsFilter)]
    let sourceBin := gst_bin_add sourceBin filter
    let sourceBin := gst_element_link sourceBin source filter
    (gst_element_factory_make "videoconvert").bind fun converter =>
    let sourceBin := gst_bin_add sourceBin converter
    let sourceBin := gst_element_link sourceBin filter converter
    GstRun.ret sourceBin

/-- The source part of `initGstreamer`: candidate list, selection, capability
query, then the source bin. -/
def sourceStage (p : VideoDDSpublisher) (env : Env) : GstRun GstBin :=
  match elementSelection env.probe (sourceCanditates p.m_useTestSrc) with
  | .error msg => { calls := [], result := .error msg }
  | .ok elementName => buildSourceBin p elementName (env.caps elementName)

/-- The call `gst_element_factory_find(name)`: the name of the factory found,
or `none` for a null pointer. -/
def gst_element_factory_find (env : Env) (name : String) : GstRun (Option String) :=
  { calls := [.factoryFind name],
    result := .ok (if env.factoryAvailable name then some name else none) }

/-- The choice of the encoder factory and the creation of the encoder; the
result is the encoder together with the feature name of its factory. -/
def createEncoder (p : VideoDDSpublisher) (env : Env) : GstRun (GstElement × String) :=
  (if p.m_useOmx then gst_element_factory_find env "avenc_h264_omx"
   else gst_element_factory_find env "x264enc").bind fun factory =>
  match factory with
  | none => { calls := [], result := .error "No existing encoder found" }
  | some f => { calls := [.factoryCreate f], result := .ok (GstElement.new f, f) }

/-- Encoding bitrate in kbit/s. -/
def kilobitrate : Int := 1280

/-- Distance between two key frames. -/
def keyframedistance : Int := 30

/-- The encoder bin: the encoder with its settings, followed for the OMX
encoder by the parser. -/
def encoderStage (p : VideoDDSpublisher) (env : Env) : GstRun GstBin :=
  (createEncoder p env).bind fun (encoder, encoderName) =>
  let encodereBin := gst_bin_new "encodereBin"
  if encoderName == "avenc_h264_omx" then
    let encoder := g_object_set encoder
      [("bitrate", .gint64 (kilobitrate * 1000)),
       ("gop-size", .gint keyframedistance)]
    let encodereBin := gst_bin_add encodereBin encoder
    (gst_element_factory_make "h264parse").bind fun h264parse =>
    let h264parse := g_object_set h264parse [("config-interval", .gint (-1))]
    let encodereBin := gst_bin_add encodereBin h264parse
    let encodereBin := gst_element_link encodereBin encoder h264parse
    GstRun.ret encodereBin
  else if encoderName == "x264enc" then
    let encoder := g_object_set encoder
      [("bitrate", .guint kilobitrate.toNat),
       ("vbv-buf-capacity", .guint 2000),
       ("key-int-max", .guint keyframedistance.toNat),
       ("threads", .guint 1),
       ("sliced-threads", .gboolean false),
       ("insert-vui", .gboolean false),
       ("speed-preset", .gint 1),
       ("trellis", .gboolean false),
       ("aud", .gboolean false)]
    let encodereBin := gst_bin_add encodereBin encoder
    GstRun.ret encodereBin
  else
    { calls := [], result := .error "Encoder not valid" }

/-- The caps of the publish sink. -/
def ddsSinkCaps : GstCaps :=
  gst_caps_new_simple "video/x-h264"
    [("stream-format", .str "byte-stream"), ("alignment", .str "au")]

/-- The publish bin (`senderBin`): one `appsink`. -/
def ddsStage : GstRun GstBin :=
  let ddsBin := gst_bin_new "senderBin"
  (gst_element_factory_make "appsink").bind fun ddsAppSink =>
  let ddsAppSink := g_object_set ddsAppSink
    [("emit-signals", .gboolean true),
     ("caps", .caps ddsSinkCaps),
     ("max-buffers", .gint 1),
     ("drop", .gboolean false),
     ("sync", .gboolean false)]
  let ddsAppSink := g_signal_connect ddsAppSink "new-sample" "PipelineDDS::pullSampleAndSendViaDDS"
  let ddsBin := gst_bin_add ddsBin ddsAppSink
  GstRun.ret ddsBin

/-- The caps of the preview sink. -/
def displaySinkCaps : GstCaps :=
  gst_caps_new_simple "video/x-raw" [("format", .str "RGBA")]

/-- The preview bin: converter and `appsink`, linked. -/
def displayStage : GstRun GstBin :=
  let displayBin := gst_bin_new "displayBin"
  (gst_element_factory_make "videoconvert").bind fun displayConverter =>
  (gst_element_factory_make "appsink").bind fun displayAppSink =>
  let displayBin := gst_bin_add displayBin displayConverter
  let displayAppSink := g_object_set displayAppSink
    [("caps", .caps displaySinkCaps),
     ("max-buffers", .gint 1),
     ("drop", .gboolean true),
     ("sync", .gboolean false)]
  let displayBin := gst_bin_add displayBin displayAppSink
  let displayBin := gst_element_link displayBin displayConverter displayAppSink
  GstRun.ret displayBin

/-- The block "Bring the bins together", run when `m_pipeline` is not
null. -/
def assemble (m_dataWriter : Option DataWriter)
    (sourceBin encodereBin ddsBin displayBin : GstBin) (pl : PipelineDDS) : PipelineDDS :=
  let pl := { pl with name := some "VideoDDSPublisher" }
  let pl := { pl with srcBinI := some sourceBin }
  let pl := { pl with sinkBinMainI := some encodereBin }
  let pl := { pl with sinkBinMainII := some ddsBin }
  let pl := { pl with sinkBinSecondary := some displayBin }
  let pl := { pl with linked := true }
  let pl := { pl with dataWriter := m_dataWriter }
  { pl with started := true }

/-- The whole of `initGstreamer`: the four stages in source order, then the
assembly.  A stage that throws ends the run; the publisher is then not
returned. -/
def initGstreamer (p : VideoDDSpublisher) (env : Env) : GstRun VideoDDSpublisher :=
  (sourceStage p env).bind fun sourceBin =>
  (encoderStage p env).bind fun encodereBin =>
  ddsStage.bind fun ddsBin =>
  displayStage.bind fun displayBin =>
  match p.m_pipeline with
  | some pl =>
    GstRun.ret { p with m_pipeline := some (assemble p.m_dataWriter sourceBin encodereBin ddsBin displayBin pl) }
  | none => GstRun.ret p

/-- Outcome of `init`: the `qCritical` lines of `initDDS` and the run of
`initGstreamer` that follows it. -/
structure InitOutcome where
  critical : List String
  gst : GstRun VideoDDSpublisher

/-- The function `init`: a new pipeline object, `initDDS("VideoStream")`,
then `initGstreamer()`. -/
def init (p : VideoDDSpublisher) (env : Env) : InitOutcome :=
  let p := { p with m_pipeline := some PipelineDDS.new }
  let (p, critical) := initDDS p env "VideoStream"
  { critical := critical, gst := initGstreamer p env }

/-- Whether a run ended with a started pipeline. -/
def pipelineStarted (r : GstRun VideoDDSpublisher) : Bool :=
  match r.result with
  | .ok p => match p.m_pipeline with
    | some pl => pl.started
    | none => false
  | .error _ => false


/-! ## Sample inputs -/

/-- A machine with no camera and the software encoder only; DDS works. -/
def envSoftware : Env :=
  { ddsOutcome := .ok,
    topicQos := { ownershipStrength := 0, autoDisposeUnregisteredInstances := true,
                  ownership := .shared, livelinessKind := .automatic,
                  livelinessLease := .infinite },
    probe := fun n => n == "videotestsrc",
    caps := fun _ => [],
    factoryAvailable := fun n => n == "x264enc" }

/-- The same machine with DDS out of resources. -/
def envDdsDown : Env :=
  { envSoftware with ddsOutcome := .outOfResourcesError "no memory" }

/-- A machine that also has the hardware encoder. -/
def envOmx : Env :=
  { envSoftware with factoryAvailable := fun n => n == "x264enc" || n == "avenc_h264_omx" }

/-- A publisher asked for the hardware encoder. -/
def publisherOmx : VideoDDSpublisher := VideoDDSpublisher.new.setUseOmx true

/-- A publisher as `init` hands it to `initGstreamer`: flags as constructed,
a fresh pipeline object. -/
def publisherReady : VideoDDSpublisher :=
  { VideoDDSpublisher.new with m_pipeline := some PipelineDDS.new }

/-- The publisher after `initGstreamer` ran on `publisherReady`. -/
def publisherStarted : VideoDDSpublisher :=
  match (initGstreamer publisherReady envSoftware).result with
  | .ok q => q
  | .error _ => publisherReady

/-- The pipeline object of `publisherStarted`. -/
def pipelineOfStarted : PipelineDDS :=
  match publisherStarted.m_pipeline with
  | some pl => pl
  | none => PipelineDDS.new

/-- A camera advertising four modes. -/
def webcamCaps : List CapEntry :=
  [ { pixelFormat := "YUY2", width := 1280, height := 720, frameRateNum := 10, frameRateDen := 1 },
    { pixelFormat := "YUY2", width := 320, height := 240, frameRateNum := 30, frameRateDen := 1 },
    { pixelFormat := "YUY2", width := 640, height := 480, frameRateNum := 60, frameRateDen := 2 },
    { pixelFormat := "MJPG", width := 480, height := 640, frameRateNum := 30, frameRateDen := 1 } ]


/-! ## Basic facts about runs -/

/-- The source bin is built with two `gst_element_factory_make` calls, or
with none when the caps negotiation throws. -/
theorem buildSourceBin_calls (p : VideoDDSpublisher) (elementName : String)
    (caps : List CapEntry) :
    (buildSourceBin p elementName caps).calls = [] ∨
    (buildSourceBin p elementName caps).calls =
      [.factoryMake "capsfilter", .factoryMake "videoconvert"] := by
  unfold buildSourceBin
  cases negotiateCaps p.m_useFixedCaps p.m_useTestSrc elementName caps with
  | error msg => left; rfl
  | ok c => right; rfl

/-- The source stage makes no call other than those two. -/
theorem sourceStage_calls (p : VideoDDSpublisher) (env : Env) :
    (sourceStage p env).calls = [] ∨
    (sourceStage p env).calls = [.factoryMake "capsfilter", .factoryMake "videoconvert"] := by
  unfold sourceStage
  cases elementSelection env.probe (sourceCanditates p.m_useTestSrc) with
  | error msg => left; rfl
  | ok n => exact buildSourceBin_calls p n (env.caps n)

/-- With the hardware encoder requested and absent from the registry, the
encoder stage throws after the one lookup. -/
theorem encoderStage_omx_missing (p : VideoDDSpublisher) (env : Env)
    (hOmx : p.m_useOmx = true) (hMissing : env.factoryAvailable "avenc_h264_omx" = false) :
    (encoderStage p env).calls = [.factoryFind "avenc_h264_omx"] ∧
    (encoderStage p env).result = .error "No existing encoder found" := by
  simp [encoderStage, createEncoder, gst_element_factory_find, GstRun.bind, hOmx, hMissing]

/-- When the caps negotiation returns, the source bin is built and holds the
source, a caps filter carrying the negotiated caps, and the converter. -/
theorem buildSourceBin_ok (p : VideoDDSpublisher) (elementName : String)
    (caps : List CapEntry) (c : GstCaps)
    (hneg : negotiateCaps p.m_useFixedCaps p.m_useTestSrc elementName caps = .ok c) :
    ∃ bin, (buildSourceBin p elementName caps).result = .ok bin ∧
      bin.elements = [GstElement.new elementName,
        g_object_set (GstElement.new "capsfilter") [("caps", .caps c)],
        GstElement.new "videoconvert"] ∧
      bin.links = [(elementName, "capsfilter"), ("capsfilter", "videoconvert")] := by
  refine ⟨{ name := "sourceBin",
             elements := [GstElement.new elementName,
               g_object_set (GstElement.new "capsfilter") [("caps", .caps c)],
               GstElement.new "videoconvert"],
             links := [(elementName, "capsfilter"), ("capsfilter", "videoconvert")] },
    ?_, rfl, rfl⟩
  simp [buildSourceBin, hneg, GstRun.bind, gst_element_factory_make, GstRun.ret,
    gst_bin_new, gst_bin_add, gst_element_link, g_object_set, GstElement.new]

/-- The caps filter of a source bin built from negotiated caps `c` carries
`c` as its `caps` property. -/
theorem buildSourceBin_filter (p : VideoDDSpublisher) (elementName : String)
    (caps : List CapEntry) (c : GstCaps)
    (hneg : negotiateCaps p.m_useFixedCaps p.m_useTestSrc elementName caps = .ok c) :
    ∃ bin filter, (buildSourceBin p elementName caps).result = .ok bin ∧
      filter ∈ bin.elements ∧ filter.factory = "capsfilter" ∧
      filter.prop? "caps" = some (.caps c) := by
  obtain ⟨bin, hbin, hel, _⟩ := buildSourceBin_ok p elementName caps c hneg
  refine ⟨bin, g_object_set (GstElement.new "capsfilter") [("caps", .caps c)], hbin, ?_, rfl, rfl⟩
  rw [hel]
  simp

/-- With the software encoder requested and found, the encoder is created
from `x264enc`. -/
theorem bin_ok_x264 (p : VideoDDSpublisher) (env : Env) (hu : p.m_useOmx = false)
    (hAvail : env.factoryAvailable "x264enc" = true) :
    (createEncoder p env).result = .ok (GstElement.new "x264enc", "x264enc") := by
  simp [createEncoder, gst_element_factory_find, GstRun.bind, hu, hAvail]

/-- With the hardware encoder requested and found, the encoder is created
from `avenc_h264_omx`. -/
theorem bin_ok_omx (p : VideoDDSpublisher) (env : Env) (hu : p.m_useOmx = true)
    (hAvail : env.factoryAvailable "avenc_h264_omx" = true) :
    (createEncoder p env).result =
      .ok (GstElement.new "avenc_h264_omx", "avenc_h264_omx") := by
  simp [createEncoder, gst_element_factory_find, GstRun.bind, hu, hAvail]

/-! ## Encoder selection -/

/-- C1: when hardware encoding is requested (`m_useOmx = true`) and the lookup
of `avenc_h264_omx` finds nothing, the encoder selection throws
"No existing encoder found" after that single lookup; the run of
`initGstreamer` ends in an error, creates no encoder and never looks up
`x264enc`. -/
theorem hardware_encoder_missing_is_error (p : VideoDDSpublisher) (env : Env)
    (hOmx : p.m_useOmx = true) (hMissing : env.factoryAvailable "avenc_h264_omx" = false) :
    (createEncoder p env).result = .error "No existing encoder found" ∧
    (createEncoder p env).calls = [.factoryFind "avenc_h264_omx"] ∧
    (∃ msg, (initGstreamer p env).result = .error msg) ∧
    (∀ bin, (sourceStage p env).result = .ok bin →
      (initGstreamer p env).result = .error "No existing encoder found") ∧
    (∀ name, GstCall.factoryCreate name ∉ (initGstreamer p env).calls) ∧
    GstCall.factoryFind "x264enc" ∉ (initGstreamer p env).calls := by
  have hEnc := encoderStage_omx_missing p env hOmx hMissing
  refine ⟨?_, ?_, ?_, ?_, ?_, ?_⟩
  · simp [createEncoder, gst_element_factory_find, GstRun.bind, hOmx, hMissing]
  · simp [createEncoder, gst_element_factory_find, GstRun.bind, hOmx, hMissing]
  · cases hs : (sourceStage p env).result with
    | error msg => exact ⟨msg, by simp [initGstreamer, GstRun.bind, hs]⟩
    | ok bin =>
      exact ⟨"No existing encoder found", by simp [initGstreamer, GstRun.bind, hs, hEnc.2]⟩
  · intro bin hs
    simp [initGstreamer, GstRun.bind, hs, hEnc.2]
  · intro name
    cases hs : (sourceStage p env).result with
    | error msg =>
      rcases sourceStage_calls p env with hc | hc <;>
        simp [initGstreamer, GstRun.bind, hs, hc]
    | ok bin =>
      rcases sourceStage_calls p env with hc | hc <;>
        simp [initGstreamer, GstRun.bind, hs, hc, hEnc.1, hEnc.2]
  · cases hs : (sourceStage p env).result with
    | error msg =>
      rcases sourceStage_calls p env with hc | hc <;>
        simp [initGstreamer, GstRun.bind, hs, hc]
    | ok bin =>
      rcases sourceStage_calls p env with hc | hc <;>
        simp [initGstreamer, GstRun.bind, hs, hc, hEnc.1, hEnc.2]

/-- C1 at a sample input: hardware encoder requested on a machine that has
only `x264enc`. -/
theorem hardware_encoder_missing_is_error_witness :
    (createEncoder publisherOmx envSoftware).result = .error "No existing encoder found" ∧
    (createEncoder publisherOmx envSoftware).calls = [.factoryFind "avenc_h264_omx"] ∧
    (∃ msg, (initGstreamer publisherOmx envSoftware).result = .error msg) ∧
    (∀ bin, (sourceStage publisherOmx envSoftware).result = .ok bin →
      (initGstreamer publisherOmx envSoftware).result = .error "No existing encoder found") ∧
    (∀ name, GstCall.factoryCreate name ∉ (initGstreamer publisherOmx envSoftware).calls) ∧
    GstCall.factoryFind "x264enc" ∉ (initGstreamer publisherOmx envSoftware).calls :=
  hardware_encoder_missing_is_error publisherOmx envSoftware rfl (by decide)

/-! ## Source candidates and selection -/

/-- C5 as stated fails: with the test-source flag false the candidate list
still contains `videotestsrc`. -/
theorem test_source_listed_without_flag :
    VideoDDSpublisher.new.m_useTestSrc = false ∧
    "videotestsrc" ∈ sourceCanditates VideoDDSpublisher.new.m_useTestSrc := by
  decide

/-- C5 (amended): the candidate list is in order of preference.  With the
test-source flag false it is `ksvideosrc`, `v4l2src`, `videotestsrc`: the real
sources first and the synthetic test source kept as the last entry; with the
flag true it is `videotestsrc` alone, the real sources being left out. -/
theorem candidates_by_preference (m_useTestSrc : Bool) :
    sourceCanditates m_useTestSrc =
      (if m_useTestSrc then [] else ["ksvideosrc", "v4l2src"]) ++ ["videotestsrc"] ∧
    (sourceCanditates false).indexOf "ksvideosrc" < (sourceCanditates false).indexOf "v4l2src" ∧
    (sourceCanditates false).indexOf "v4l2src" < (sourceCanditates false).indexOf "videotestsrc" ∧
    "ksvideosrc" ∉ sourceCanditates true ∧ "v4l2src" ∉ sourceCanditates true ∧
    "videotestsrc" ∈ sourceCanditates m_useTestSrc := by
  refine ⟨?_, by decide, by decide, by decide, by decide, ?_⟩
  · cases m_useTestSrc <;> rfl
  · cases m_useTestSrc <;> decide

/-- C6: for either value of the test-source flag the candidate list is not
empty and ends with `videotestsrc`; with first-success-wins selection over it,
if `ksvideosrc` and `v4l2src` cannot be instantiated and `videotestsrc` can,
the selection returns `videotestsrc`. -/
theorem test_source_is_last_resort (m_useTestSrc : Bool) (probe : String → Bool)
    (hKs : probe "ksvideosrc" = false) (hV4l : probe "v4l2src" = false)
    (hTest : probe "videotestsrc" = true) :
    elementSelection probe (sourceCanditates m_useTestSrc) = .ok "videotestsrc" ∧
    sourceCanditates m_useTestSrc ≠ [] ∧
    (sourceCanditates m_useTestSrc).getLast? = some "videotestsrc" := by
  cases m_useTestSrc <;>
    simp [sourceCanditates, elementSelection, hKs, hV4l, hTest]

/-- C6 at a sample input: a machine on which only the test source can be
instantiated, test-source flag off. -/
theorem test_source_is_last_resort_witness :
    elementSelection envSoftware.probe (sourceCanditates false) = .ok "videotestsrc" ∧
    sourceCanditates false ≠ [] ∧
    (sourceCanditates false).getLast? = some "videotestsrc" :=
  test_source_is_last_resort false envSoftware.probe (by decide) (by decide) (by decide)

/-! ## Ownership strength and writer QoS -/

/-- C8: after `setStrength(s)` the getter returns `s`; when the DDS calls
succeed, the data writer `initDDS` creates has ownership strength `s`,
exclusive ownership and manual-by-topic liveliness with a lease of 1000 ms.
A publisher fresh from the constructor, whatever flags are then set on it,
has strength 0 and gets a writer of strength 0. -/
theorem writer_qos_carries_strength (p : VideoDDSpublisher) (s : Int) (env : Env)
    (topicName : String) (a b c : Bool) (hOk : env.ddsOutcome = .ok) :
    (p.setStrength s).strength = s ∧
    (∃ w, (initDDS (p.setStrength s) env topicName).1.m_dataWriter = some w ∧
      w.qos = dataWriterQos env.topicQos s ∧
      w.qos.ownershipStrength = s ∧
      w.qos.ownership = .exclusive ∧
      w.qos.livelinessKind = .manualByTopic ∧
      w.qos.livelinessLease = .millisecs 1000) ∧
    VideoDDSpublisher.new.strength = 0 ∧
    (((VideoDDSpublisher.new.setUseTestSrc a).setUseOmx b).setUseFixedCaps c).strength = 0 ∧
    (∃ w, (initDDS (((VideoDDSpublisher.new.setUseTestSrc a).setUseOmx b).setUseFixedCaps c)
        env topicName).1.m_dataWriter = some w ∧ w.qos.ownershipStrength = 0) := by
  refine ⟨rfl, ?_, rfl, rfl, ?_⟩
  · simp [initDDS, hOk, dataWriterQos, VideoDDSpublisher.setStrength]
  · simp [initDDS, hOk, dataWriterQos, VideoDDSpublisher.setUseFixedCaps,
      VideoDDSpublisher.setUseOmx, VideoDDSpublisher.setUseTestSrc, VideoDDSpublisher.new]

/-- C8 at a sample input: strength 10 on a machine where DDS works. -/
theorem writer_qos_carries_strength_witness :
    (VideoDDSpublisher.new.setStrength 10).strength = 10 ∧
    (∃ w, (initDDS (VideoDDSpublisher.new.setStrength 10) envSoftware
        "VideoStream").1.m_dataWriter = some w ∧
      w.qos = dataWriterQos envSoftware.topicQos 10 ∧
      w.qos.ownershipStrength = 10 ∧
      w.qos.ownership = .exclusive ∧
      w.qos.livelinessKind = .manualByTopic ∧
      w.qos.livelinessLease = .millisecs 1000) ∧
    VideoDDSpublisher.new.strength = 0 ∧
    (((VideoDDSpublisher.new.setUseTestSrc true).setUseOmx false).setUseFixedCaps
      false).strength = 0 ∧
    (∃ w, (initDDS (((VideoDDSpublisher.new.setUseTestSrc true).setUseOmx false).setUseFixedCaps
        false) envSoftware "VideoStream").1.m_dataWriter = some w ∧
      w.qos.ownershipStrength = 0) :=
  writer_qos_carries_strength VideoDDSpublisher.new 10 envSoftware "VideoStream"
    true false false rfl

/-! ## Caps negotiation: the two fixed branches -/

/-- C3: with `m_useFixedCaps = true`, for every value of the test-source flag,
every selected source element and every queried capability set, the caps
chosen are `video/x-raw` 640x480 at 30/1, and the source bin is built with a
caps filter whose `caps` property is exactly that. -/
theorem fixed_override_takes_precedence (p : VideoDDSpublisher) (elementName : String)
    (caps : List CapEntry) (hFixed : p.m_useFixedCaps = true) :
    negotiateCaps p.m_useFixedCaps p.m_useTestSrc elementName caps =
      .ok (gst_caps_new_simple "video/x-raw"
        [("width", .int 640), ("height", .int 480), ("framerate", .fraction 30 1)]) ∧
    ∃ bin filter, (buildSourceBin p elementName caps).result = .ok bin ∧
      filter ∈ bin.elements ∧ filter.factory = "capsfilter" ∧
      filter.prop? "caps" = some (.caps (gst_caps_new_simple "video/x-raw"
        [("width", .int 640), ("height", .int 480), ("framerate", .fraction 30 1)])) := by
  have hneg : negotiateCaps p.m_useFixedCaps p.m_useTestSrc elementName caps = .ok fixedCaps := by
    simp [negotiateCaps, hFixed]
  exact ⟨hneg, buildSourceBin_filter p elementName caps fixedCaps hneg⟩

/-- C3 at a sample input: override set together with the test-source flag,
a real source selected and a non-empty capability set. -/
theorem fixed_override_takes_precedence_witness :
    negotiateCaps ((VideoDDSpublisher.new.setUseTestSrc true).setUseFixedCaps true).m_useFixedCaps
        ((VideoDDSpublisher.new.setUseTestSrc true).setUseFixedCaps true).m_useTestSrc
        "v4l2src" webcamCaps =
      .ok (gst_caps_new_simple "video/x-raw"
        [("width", .int 640), ("height", .int 480), ("framerate", .fraction 30 1)]) ∧
    ∃ bin filter, (buildSourceBin ((VideoDDSpublisher.new.setUseTestSrc true).setUseFixedCaps true)
        "v4l2src" webcamCaps).result = .ok bin ∧
      filter ∈ bin.elements ∧ filter.factory = "capsfilter" ∧
      filter.prop? "caps" = some (.caps (gst_caps_new_simple "video/x-raw"
        [("width", .int 640), ("height", .int 480), ("framerate", .fraction 30 1)])) :=
  fixed_override_takes_precedence ((VideoDDSpublisher.new.setUseTestSrc true).setUseFixedCaps true)
    "v4l2src" webcamCaps rfl

/-- C4: with no fixed override, when the test-source flag is set or the
selected source element is `videotestsrc`, the caps chosen are `video/x-raw`
with format I420, 640x480 at 30/1 for every capability set, and the source bin
is built with a caps filter carrying exactly that. -/
theorem test_source_default_format (p : VideoDDSpublisher) (elementName : String)
    (caps : List CapEntry) (hNoFixed : p.m_useFixedCaps = false)
    (hTest : p.m_useTestSrc = true ∨ elementName = "videotestsrc") :
    negotiateCaps p.m_useFixedCaps p.m_useTestSrc elementName caps =
      .ok (gst_caps_new_simple "video/x-raw"
        [("format", .str "I420"), ("width", .int 640), ("height", .int 480),
         ("framerate", .fraction 30 1)]) ∧
    ∃ bin filter, (buildSourceBin p elementName caps).result = .ok bin ∧
      filter ∈ bin.elements ∧ filter.factory = "capsfilter" ∧
      filter.prop? "caps" = some (.caps (gst_caps_new_simple "video/x-raw"
        [("format", .str "I420"), ("width", .int 640), ("height", .int 480),
         ("framerate", .fraction 30 1)])) := by
  have hneg : negotiateCaps p.m_useFixedCaps p.m_useTestSrc elementName caps =
      .ok testSourceCaps := by
    rcases hTest with h | h <;> simp [negotiateCaps, hNoFixed, h]
  exact ⟨hneg, buildSourceBin_filter p elementName caps testSourceCaps hneg⟩

/-- C4 at a sample input: flag off, `videotestsrc` selected (as the fallback),
and a capability set that would otherwise be scanned. -/
theorem test_source_default_format_witness :
    negotiateCaps VideoDDSpublisher.new.m_useFixedCaps VideoDDSpublisher.new.m_useTestSrc
        "videotestsrc" webcamCaps =
      .ok (gst_caps_new_simple "video/x-raw"
        [("format", .str "I420"), ("width", .int 640), ("height", .int 480),
         ("framerate", .fraction 30 1)]) ∧
    ∃ bin filter, (buildSourceBin VideoDDSpublisher.new "videotestsrc" webcamCaps).result =
        .ok bin ∧
      filter ∈ bin.elements ∧ filter.factory = "capsfilter" ∧
      filter.prop? "caps" = some (.caps (gst_caps_new_simple "video/x-raw"
        [("format", .str "I420"), ("width", .int 640), ("height", .int 480),
         ("framerate", .fraction 30 1)])) :=
  test_source_default_format VideoDDSpublisher.new "videotestsrc" webcamCaps rfl (Or.inr rfl)

/-! ## The encoder bin -/

/-- C9: when the factory of the requested encoder is found, the encoder bin is
built, and it holds an `h264parse` element with `config-interval = -1` linked
directly after the encoder exactly when the encoder is `avenc_h264_omx`; with
`x264enc` the bin holds the encoder alone and no link. -/
theorem parser_wraps_hardware_encoder_only (p : VideoDDSpublisher) (env : Env)
    (hAvail : env.factoryAvailable
      (if p.m_useOmx then "avenc_h264_omx" else "x264enc") = true) :
    ∃ encoder encoderName bin,
      (createEncoder p env).result = .ok (encoder, encoderName) ∧
      (encoderStage p env).result = .ok bin ∧
      (bin.elements.map (fun e => e.factory)).head? = some encoderName ∧
      (((∃ e ∈ bin.elements, e.factory = "h264parse" ∧
            e.prop? "config-interval" = some (.gint (-1))) ∧
          (encoderName, "h264parse") ∈ bin.links) ↔ encoderName = "avenc_h264_omx") ∧
      ((∃ e ∈ bin.elements, e.factory = "h264parse") ↔ encoderName = "avenc_h264_omx") ∧
      (encoderName = "avenc_h264_omx" →
        bin.elements.map (fun e => e.factory) = ["avenc_h264_omx", "h264parse"] ∧
        bin.links = [("avenc_h264_omx", "h264parse")]) ∧
      (encoderName = "x264enc" →
        bin.elements.map (fun e => e.factory) = ["x264enc"] ∧ bin.links = []) := by
  cases hu : p.m_useOmx
  · simp only [hu, Bool.false_eq_true, if_false] at hAvail
    cases hres : (encoderStage p env).result with
    | error msg =>
      simp [encoderStage, createEncoder, gst_element_factory_find, GstRun.bind, hu, hAvail,
        GstRun.ret] at hres
    | ok bin =>
      have hbin := hres
      simp [encoderStage, createEncoder, gst_element_factory_find, GstRun.bind, hu, hAvail,
        GstRun.ret] at hbin
      subst hbin
      refine ⟨GstElement.new "x264enc", "x264enc", _, bin_ok_x264 p env hu hAvail, rfl, ?_⟩
      simp [gst_bin_add, gst_bin_new, g_object_set, GstElement.new]
  · simp only [hu, if_true] at hAvail
    cases hres : (encoderStage p env).result with
    | error msg =>
      simp [encoderStage, createEncoder, gst_element_factory_find, GstRun.bind, hu, hAvail,
        GstRun.ret, gst_element_factory_make] at hres
    | ok bin =>
      have hbin := hres
      simp [encoderStage, createEncoder, gst_element_factory_find, GstRun.bind, hu, hAvail,
        GstRun.ret, gst_element_factory_make] at hbin
      subst hbin
      refine ⟨GstElement.new "avenc_h264_omx", "avenc_h264_omx", _,
        bin_ok_omx p env hu hAvail, rfl, ?_⟩
      simp [gst_bin_add, gst_bin_new, g_object_set, GstElement.new, gst_element_link,
        GstElement.prop?]

/-- C9 at a sample input: hardware encoder requested on a machine that has
it. -/
theorem parser_wraps_hardware_encoder_only_witness :
    ∃ encoder encoderName bin,
      (createEncoder publisherOmx envOmx).result = .ok (encoder, encoderName) ∧
      (encoderStage publisherOmx envOmx).result = .ok bin ∧
      (bin.elements.map (fun e => e.factory)).head? = some encoderName ∧
      (((∃ e ∈ bin.elements, e.factory = "h264parse" ∧
            e.prop? "config-interval" = some (.gint (-1))) ∧
          (encoderName, "h264parse") ∈ bin.links) ↔ encoderName = "avenc_h264_omx") ∧
      ((∃ e ∈ bin.elements, e.factory = "h264parse") ↔ encoderName = "avenc_h264_omx") ∧
      (encoderName = "avenc_h264_omx" →
        bin.elements.map (fun e => e.factory) = ["avenc_h264_omx", "h264parse"] ∧
        bin.links = [("avenc_h264_omx", "h264parse")]) ∧
      (encoderName = "x264enc" →
        bin.elements.map (fun e => e.factory) = ["x264enc"] ∧ bin.links = []) :=
  parser_wraps_hardware_encoder_only publisherOmx envOmx (by decide)

/-! ## The two sinks -/

/-- The run of `initGstreamer` returns exactly when the source stage and the
encoder stage do; the sink stages never throw. -/
theorem initGstreamer_ok_iff (p : VideoDDSpublisher) (env : Env) :
    (initGstreamer p env).result.toBool =
      ((sourceStage p env).result.toBool && (encoderStage p env).result.toBool) := by
  cases hs : (sourceStage p env).result <;> cases he : (encoderStage p env).result <;>
    cases hp : p.m_pipeline <;>
    simp [initGstreamer, GstRun.bind, hs, he, hp, ddsStage, displayStage,
      gst_element_factory_make, GstRun.ret, Except.toBool]

/-- C10: both sink stages are built, the same for every configuration; each
`appsink` has `max-buffers = 1`, the preview sink has `drop = true` and the
publish sink `drop = false`; and whenever `initGstreamer` returns with a
pipeline object, these two bins are the ones handed to it. -/
theorem sinks_hold_one_buffer (p : VideoDDSpublisher) (env : Env) (q : VideoDDSpublisher)
    (pl : PipelineDDS) (hRun : (initGstreamer p env).result = .ok q)
    (hPl : q.m_pipeline = some pl) :
    ∃ ddsBin displayBin,
      ddsStage.result = .ok ddsBin ∧ displayStage.result = .ok displayBin ∧
      pl.sinkBinMainII = some ddsBin ∧ pl.sinkBinSecondary = some displayBin ∧
      (ddsBin.element? "appsink").bind (fun sink => sink.prop? "max-buffers") =
        some (.gint 1) ∧
      (ddsBin.element? "appsink").bind (fun sink => sink.prop? "drop") =
        some (.gboolean false) ∧
      (displayBin.element? "appsink").bind (fun sink => sink.prop? "max-buffers") =
        some (.gint 1) ∧
      (displayBin.element? "appsink").bind (fun sink => sink.prop? "drop") =
        some (.gboolean true) := by
  cases hdds : ddsStage.result with
  | error msg => simp [ddsStage, GstRun.bind, gst_element_factory_make, GstRun.ret] at hdds
  | ok ddsBin =>
    cases hdisp : displayStage.result with
    | error msg =>
      simp [displayStage, GstRun.bind, gst_element_factory_make, GstRun.ret] at hdisp
    | ok displayBin =>
      have hpl : pl.sinkBinMainII = some ddsBin ∧ pl.sinkBinSecondary = some displayBin := by
        cases hs : (sourceStage p env).result with
        | error msg => simp [initGstreamer, GstRun.bind, hs] at hRun
        | ok sourceBin =>
          cases he : (encoderStage p env).result with
          | error msg => simp [initGstreamer, GstRun.bind, hs, he] at hRun
          | ok encodereBin =>
            cases hp : p.m_pipeline with
            | none =>
              simp [initGstreamer, GstRun.bind, hs, he, hdds, hdisp, hp, GstRun.ret] at hRun
              subst hRun
              rw [hp] at hPl
              cases hPl
            | some pl0 =>
              simp [initGstreamer, GstRun.bind, hs, he, hdds, hdisp, hp, GstRun.ret] at hRun
              subst hRun
              simp only [Option.some.injEq] at hPl
              subst hPl
              simp [assemble]
      simp [ddsStage, GstRun.bind, gst_element_factory_make, GstRun.ret] at hdds
      simp [displayStage, GstRun.bind, gst_element_factory_make, GstRun.ret] at hdisp
      subst hdds
      subst hdisp
      refine ⟨_, _, rfl, rfl, hpl.1, hpl.2, ?_, ?_, ?_, ?_⟩ <;> rfl

/-- C10 at a sample input: the run `init` makes on a machine with the test
source and the software encoder. -/
theorem sinks_hold_one_buffer_witness :
    ∃ ddsBin displayBin,
      ddsStage.result = .ok ddsBin ∧ displayStage.result = .ok displayBin ∧
      pipelineOfStarted.sinkBinMainII = some ddsBin ∧
      pipelineOfStarted.sinkBinSecondary = some displayBin ∧
      (ddsBin.element? "appsink").bind (fun sink => sink.prop? "max-buffers") =
        some (.gint 1) ∧
      (ddsBin.element? "appsink").bind (fun sink => sink.prop? "drop") =
        some (.gboolean false) ∧
      (displayBin.element? "appsink").bind (fun sink => sink.prop? "max-buffers") =
        some (.gint 1) ∧
      (displayBin.element? "appsink").bind (fun sink => sink.prop? "drop") =
        some (.gboolean true) :=
  sinks_hold_one_buffer publisherReady envSoftware publisherStarted pipelineOfStarted rfl rfl

/-! ## Start-up after a DDS failure -/

/-- The run of `initGstreamer` does not read the data writer except to hand
it to the pipeline: its calls and whether it ends with a started pipeline are
the same for any value of `m_dataWriter`. -/
theorem initGstreamer_ignores_writer (p : VideoDDSpublisher) (env : Env)
    (w : Option DataWriter) :
    (initGstreamer { p with m_dataWriter := w } env).calls = (initGstreamer p env).calls ∧
    pipelineStarted (initGstreamer { p with m_dataWriter := w } env) =
      pipelineStarted (initGstreamer p env) := by
  have hs : sourceStage { p with m_dataWriter := w } env = sourceStage p env := rfl
  have he : encoderStage { p with m_dataWriter := w } env = encoderStage p env := rfl
  unfold initGstreamer
  rw [hs, he]
  constructor
  · cases hsr : (sourceStage p env).result <;> cases her : (encoderStage p env).result <;>
      cases hp : p.m_pipeline <;>
      simp [GstRun.bind, hsr, her, hp, ddsStage, displayStage,
        gst_element_factory_make, GstRun.ret]
  · cases hsr : (sourceStage p env).result <;> cases her : (encoderStage p env).result <;>
      cases hp : p.m_pipeline <;>
      simp [GstRun.bind, hsr, her, hp, ddsStage, displayStage,
        gst_element_factory_make, GstRun.ret, pipelineStarted, assemble]

/-- With a pipeline object present, a run of `initGstreamer` that returns has
started the pipeline. -/
theorem started_of_pipeline (p : VideoDDSpublisher) (env : Env) (pl : PipelineDDS)
    (hp : p.m_pipeline = some pl) :
    pipelineStarted (initGstreamer p env) = (initGstreamer p env).result.toBool := by
  cases hsr : (sourceStage p env).result <;> cases her : (encoderStage p env).result <;>
    simp [initGstreamer, GstRun.bind, hsr, her, hp, ddsStage, displayStage,
      gst_element_factory_make, GstRun.ret, pipelineStarted, assemble, Except.toBool]

/-- C7 as stated fails: with the test-source flag set and DDS out of
resources, `initDDS` logs and returns, `init` goes on, and the pipeline is
started with a null data writer. -/
theorem init_starts_pipeline_after_dds_failure :
    envDdsDown.ddsOutcome = .outOfResourcesError "no memory" ∧
    (init (VideoDDSpublisher.new.setUseTestSrc true) envDdsDown).critical =
      ["DDS OutOfResourcesError: no memory"] ∧
    (initDDS (VideoDDSpublisher.new.setUseTestSrc true) envDdsDown
      "VideoStream").1.m_dataWriter = none ∧
    sourceCanditates (VideoDDSpublisher.new.setUseTestSrc true).m_useTestSrc =
      ["videotestsrc"] ∧
    (init (VideoDDSpublisher.new.setUseTestSrc true) envDdsDown).gst.calls =
      [.factoryMake "capsfilter", .factoryMake "videoconvert", .factoryFind "x264enc",
       .factoryCreate "x264enc", .factoryMake "appsink", .factoryMake "videoconvert",
       .factoryMake "appsink"] ∧
    pipelineStarted (init (VideoDDSpublisher.new.setUseTestSrc true) envDdsDown).gst = true := by
  decide

/-- C7 (amended): a failure inside `initDDS` is caught there and logged with
one `qCritical` line, the data writer is left as it was, and `init` goes on to
`initGstreamer`, which issues the same calls and starts the pipeline in exactly
the same cases as after a successful `initDDS`: whenever the source stage and
the encoder stage return. -/
theorem init_goes_on_after_dds_failure (p : VideoDDSpublisher) (env : Env)
    (hFail : env.ddsOutcome ≠ .ok) :
    (init p env).critical.length = 1 ∧
    (initDDS { p with m_pipeline := some PipelineDDS.new } env "VideoStream").1.m_dataWriter =
      p.m_dataWriter ∧
    (init p env).gst.calls = (init p { env with ddsOutcome := .ok }).gst.calls ∧
    pipelineStarted (init p env).gst =
      pipelineStarted (init p { env with ddsOutcome := .ok }).gst ∧
    pipelineStarted (init p env).gst =
      ((sourceStage p env).result.toBool && (encoderStage p env).result.toBool) := by
  have hinit : (init p env).gst = initGstreamer { p with m_pipeline := some PipelineDDS.new } env := by
    cases hd : env.ddsOutcome <;> first | exact absurd hd hFail | simp [init, initDDS, hd]
  have hok : (init p { env with ddsOutcome := .ok }).gst =
      initGstreamer { { p with m_pipeline := some PipelineDDS.new } with
        m_dataWriter := some { topicName := "VideoStream",
                               qos := dataWriterQos env.topicQos p.m_strength } } env := by
    simp [init, initDDS]
    rfl
  refine ⟨?_, ?_, ?_, ?_, ?_⟩
  · cases hd : env.ddsOutcome <;> first | exact absurd hd hFail | simp [init, initDDS, hd]
  · cases hd : env.ddsOutcome <;> first | exact absurd hd hFail | simp [initDDS, hd]
  · rw [hinit, hok]
    exact (initGstreamer_ignores_writer _ env _).1.symm
  · rw [hinit, hok]
    exact (initGstreamer_ignores_writer _ env _).2.symm
  · rw [hinit, started_of_pipeline _ env PipelineDDS.new rfl, initGstreamer_ok_iff]
    rfl

/-- C7 (amended) at a sample input: DDS out of resources on a machine with
the test source and the software encoder. -/
theorem init_goes_on_after_dds_failure_witness :
    (init VideoDDSpublisher.new envDdsDown).critical.length = 1 ∧
    (initDDS { VideoDDSpublisher.new with m_pipeline := some PipelineDDS.new } envDdsDown
      "VideoStream").1.m_dataWriter = VideoDDSpublisher.new.m_dataWriter ∧
    (init VideoDDSpublisher.new envDdsDown).gst.calls =
      (init VideoDDSpublisher.new { envDdsDown with ddsOutcome := .ok }).gst.calls ∧
    pipelineStarted (init VideoDDSpublisher.new envDdsDown).gst =
      pipelineStarted (init VideoDDSpublisher.new { envDdsDown with ddsOutcome := .ok }).gst ∧
    pipelineStarted (init VideoDDSpublisher.new envDdsDown).gst =
      ((sourceStage VideoDDSpublisher.new envDdsDown).result.toBool &&
        (encoderStage VideoDDSpublisher.new envDdsDown).result.toBool) :=
  init_goes_on_after_dds_failure VideoDDSpublisher.new envDdsDown (by decide)

/-! ## Caps negotiation: the capability scan -/

/-- With positive denominators, `FrameRate.lt` is `<` on the rationals. -/
theorem FrameRate.lt_iff (a b : CapEntry) (ha : 0 < a.frameRateDen) (hb : 0 < b.frameRateDen) :
    a.frameRate.lt b.frameRate = true ↔ a.rate < b.rate := by
  have ha' : (0 : ℚ) < a.frameRateDen := by exact_mod_cast ha
  have hb' : (0 : ℚ) < b.frameRateDen := by exact_mod_cast hb
  simp only [FrameRate.lt, CapEntry.frameRate, CapEntry.rate, decide_eq_true_eq]
  rw [div_lt_div_iff₀ ha' hb']
  exact_mod_cast Iff.rfl

/-- With positive denominators, `FrameRate.eq` is `=` on the rationals. -/
theorem FrameRate.eq_iff (a b : CapEntry) (ha : 0 < a.frameRateDen) (hb : 0 < b.frameRateDen) :
    a.frameRate.eq b.frameRate = true ↔ a.rate = b.rate := by
  have ha' : (a.frameRateDen : ℚ) ≠ 0 := by exact_mod_cast ha.ne'
  have hb' : (b.frameRateDen : ℚ) ≠ 0 := by exact_mod_cast hb.ne'
  simp only [FrameRate.eq, CapEntry.frameRate, CapEntry.rate, decide_eq_true_eq]
  rw [div_eq_div_iff ha' hb']
  exact_mod_cast Iff.rfl

/-- The frame-rate scan keeps its invariant over any list with positive
denominators. -/
theorem rateScan_inv (l : List CapEntry) (hDen : ∀ x ∈ l, 0 < x.frameRateDen) :
    RateScanInv l (l.foldl rateStep none) := by
  induction l using List.reverseRecOn with
  | nil => simp [RateScanInv]
  | append_singleton l x ih =>
    have hl : ∀ y ∈ l, 0 < y.frameRateDen := fun y hy => hDen y (by simp [hy])
    have hx : 0 < x.frameRateDen := hDen x (by simp)
    have ih := ih hl
    rw [List.foldl_append]
    simp only [List.foldl_cons, List.foldl_nil]
    cases hb : l.foldl rateStep none with
    | none =>
      rw [hb] at ih
      simp only [RateScanInv] at ih
      subst ih
      simp [rateStep, RateScanInv]
    | some r =>
      rw [hb] at ih
      obtain ⟨e, he, her, hmax⟩ := ih
      have hed : 0 < e.frameRateDen := hl e he
      by_cases hlt : r.lt x.frameRate = true
      · have hlt' : e.rate < x.rate := by
          rw [← her] at hlt
          exact (FrameRate.lt_iff e x hed hx).1 hlt
        simp only [rateStep, hlt, if_true, RateScanInv]
        refine ⟨x, by simp, rfl, ?_⟩
        intro y hy
        rcases List.mem_append.1 hy with hy | hy
        · exact le_trans (hmax y hy) hlt'.le
        · simp at hy
          subst hy
          exact le_refl _
      · have hge : x.rate ≤ e.rate := by
          rw [← her] at hlt
          exact not_lt.1 (fun h => hlt ((FrameRate.lt_iff e x hed hx).2 h))
        simp only [rateStep, hlt, RateScanInv]
        refine ⟨e, by simp [he], her, ?_⟩
        intro y hy
        rcases List.mem_append.1 hy with hy | hy
        · exact hmax y hy
        · simp at hy
          subst hy
          exact hge

/-- The area scan keeps its invariant over any list, for any rate. -/
theorem areaScan_inv (r : FrameRate) (l : List CapEntry) :
    AreaScanInv r l (l.foldl (areaStep r) none) := by
  induction l using List.reverseRecOn with
  | nil => simp [AreaScanInv]
  | append_singleton l x ih =>
    rw [List.foldl_append]
    simp only [List.foldl_cons, List.foldl_nil]
    by_cases hx : x.frameRate.eq r = true
    · cases hb : l.foldl (areaStep r) none with
      | none =>
        rw [hb] at ih
        simp only [AreaScanInv] at ih
        simp only [areaStep, hx, if_true, AreaScanInv]
        refine ⟨l, [], rfl, trivial, ?_, by simp⟩
        intro y hy hyr
        rw [ih y hy] at hyr
        cases hyr
      | some b =>
        rw [hb] at ih
        obtain ⟨pre, post, hl, hbr, hpre, hpost⟩ := ih
        by_cases hlt : b.area < x.area
        · simp only [areaStep, hx, if_true, hlt, AreaScanInv]
          refine ⟨l, [], rfl, trivial, ?_, by simp⟩
          intro y hy hyr
          rw [hl] at hy
          rcases List.mem_append.1 hy with hy | hy
          · exact lt_trans (hpre y hy hyr) hlt
          · rcases List.mem_cons.1 hy with hy | hy
            · subst hy
              exact hlt
            · exact lt_of_le_of_lt (hpost y hy hyr) hlt
        · simp only [areaStep, hx, if_true, hlt, if_false, AreaScanInv]
          refine ⟨pre, post ++ [x], by simp [hl], hbr, hpre, ?_⟩
          intro y hy hyr
          rcases List.mem_append.1 hy with hy | hy
          · exact hpost y hy hyr
          · simp at hy
            subst hy
            exact not_lt.1 hlt
    · have hx' : x.frameRate.eq r = false := by simpa using hx
      cases hb : l.foldl (areaStep r) none with
      | none =>
        rw [hb] at ih
        simp only [AreaScanInv] at ih
        simp only [areaStep, hx', Bool.false_eq_true, if_false, AreaScanInv]
        intro y hy
        rcases List.mem_append.1 hy with hy | hy
        · exact ih y hy
        · simp at hy
          subst hy
          exact hx'
      | some b =>
        rw [hb] at ih
        obtain ⟨pre, post, hl, hbr, hpre, hpost⟩ := ih
        simp only [areaStep, hx', Bool.false_eq_true, if_false, AreaScanInv]
        refine ⟨pre, post ++ [x], by simp [hl], hbr, hpre, ?_⟩
        intro y hy hyr
        rcases List.mem_append.1 hy with hy | hy
        · exact hpost y hy hyr
        · simp at hy
          subst hy
          rw [hx'] at hyr
          cases hyr

/-- The capability scan on a non-empty set with positive denominators: the
entry returned sits at some position of the set, has the highest frame rate
present, the largest area among the entries at that rate, and a strictly
larger area than every earlier entry at that rate. -/
theorem capability_scan_best (caps : List CapEntry) (hNonempty : caps ≠ [])
    (hDen : ∀ x ∈ caps, 0 < x.frameRateDen) :
    ∃ r pre e post, highestRawFrameRate caps = .ok r ∧ highestRawArea caps r = .ok e ∧
      caps = pre ++ e :: post ∧
      (∀ x ∈ caps, x.rate ≤ e.rate) ∧
      (∀ x ∈ caps, x.rate = e.rate → x.area ≤ e.area) ∧
      (∀ x ∈ pre, x.rate = e.rate → x.area < e.area) := by
  have hrate := rateScan_inv caps hDen
  cases hr : caps.foldl rateStep none with
  | none =>
    rw [hr] at hrate
    exact absurd hrate hNonempty
  | some r =>
    rw [hr] at hrate
    obtain ⟨e0, he0, he0r, hmax⟩ := hrate
    have harea := areaScan_inv r caps
    cases ha : caps.foldl (areaStep r) none with
    | none =>
      rw [ha] at harea
      have h0 := harea e0 he0
      rw [← he0r] at h0
      have h1 := (FrameRate.eq_iff e0 e0 (hDen e0 he0) (hDen e0 he0)).2 rfl
      rw [h0] at h1
      cases h1
    | some e =>
      rw [ha] at harea
      obtain ⟨pre, post, hl, her, hpre, hpost⟩ := harea
      have hmem : e ∈ caps := by rw [hl]; simp
      have hrate_e : e.rate = e0.rate := by
        rw [← he0r] at her
        exact (FrameRate.eq_iff e e0 (hDen e hmem) (hDen e0 he0)).1 her
      have heq : ∀ x ∈ caps, x.rate = e.rate → x.frameRate.eq r = true := by
        intro x hx hxe
        rw [← he0r]
        exact (FrameRate.eq_iff x e0 (hDen x hx) (hDen e0 he0)).2 (hxe.trans hrate_e)
      refine ⟨r, pre, e, post, by simp [highestRawFrameRate, hr],
        by simp [highestRawArea, ha], hl, ?_, ?_, ?_⟩
      · intro x hx
        rw [hrate_e]
        exact hmax x hx
      · intro x hx hxe
        have hxr := heq x hx hxe
        rw [hl] at hx
        rcases List.mem_append.1 hx with hx | hx
        · exact (hpre x hx hxr).le
        · rcases List.mem_cons.1 hx with hx | hx
          · subst hx
            exact le_refl _
          · exact hpost x hx hxr
      · intro x hx hxe
        exact hpre x hx (heq x (by rw [hl]; simp [hx]) hxe)

/-- The scan on the sample camera: 30/1, 60/2 and 30/1 tie for the top rate,
640x480 and 480x640 tie for the largest area among them, and the earlier of
the two is returned. -/
theorem capability_scan_webcam :
    highestRawFrameRate webcamCaps = .ok { num := 30, den := 1 } ∧
    negotiateCaps false false "v4l2src" webcamCaps =
      .ok (gst_caps_new_simple "video/x-raw"
        [("format", .str "YUY2"), ("width", .int 640), ("height", .int 480),
         ("framerate", .fraction 60 2)]) :=
  ⟨rfl, rfl⟩

/-- C2: with no fixed override, the test-source flag off and a selected source
other than `videotestsrc`, for every non-empty capability set (frame-rate
denominators positive) the caps negotiated are those of an entry of the set
whose frame rate is the highest present and whose `width*height` is the
largest among the entries at that rate, every earlier entry at that rate
having a strictly smaller area; the source bin is built with a caps filter
carrying exactly these caps. -/
theorem negotiated_format_is_best (p : VideoDDSpublisher) (elementName : String)
    (caps : List CapEntry) (hNoFixed : p.m_useFixedCaps = false)
    (hNoTest : p.m_useTestSrc = false) (hReal : elementName ≠ "videotestsrc")
    (hNonempty : caps ≠ []) (hDen : ∀ x ∈ caps, 0 < x.frameRateDen) :
    ∃ pre e post, caps = pre ++ e :: post ∧
      negotiateCaps p.m_useFixedCaps p.m_useTestSrc elementName caps = .ok e.toCaps ∧
      (∀ x ∈ caps, x.rate ≤ e.rate) ∧
      (∀ x ∈ caps, x.rate = e.rate → x.area ≤ e.area) ∧
      (∀ x ∈ pre, x.rate = e.rate → x.area < e.area) ∧
      ∃ bin filter, (buildSourceBin p elementName caps).result = .ok bin ∧
        filter ∈ bin.elements ∧ filter.factory = "capsfilter" ∧
        filter.prop? "caps" = some (.caps e.toCaps) := by
  obtain ⟨r, pre, e, post, hr, ha, hl, h1, h2, h3⟩ := capability_scan_best caps hNonempty hDen
  have hneg : negotiateCaps p.m_useFixedCaps p.m_useTestSrc elementName caps = .ok e.toCaps := by
    simp [negotiateCaps, hNoFixed, hNoTest, hReal, hr, ha]
  exact ⟨pre, e, post, hl, hneg, h1, h2, h3, buildSourceBin_filter p elementName caps _ hneg⟩

/-- C2 at a sample input: a camera with four modes, three of them at the top
rate and two of those of equal, largest area. -/
theorem negotiated_format_is_best_witness :
    ∃ pre e post, webcamCaps = pre ++ e :: post ∧
      negotiateCaps VideoDDSpublisher.new.m_useFixedCaps VideoDDSpublisher.new.m_useTestSrc
        "v4l2src" webcamCaps = .ok e.toCaps ∧
      (∀ x ∈ webcamCaps, x.rate ≤ e.rate) ∧
      (∀ x ∈ webcamCaps, x.rate = e.rate → x.area ≤ e.area) ∧
      (∀ x ∈ pre, x.rate = e.rate → x.area < e.area) ∧
      ∃ bin filter, (buildSourceBin VideoDDSpublisher.new "v4l2src" webcamCaps).result = .ok bin ∧
        filter ∈ bin.elements ∧ filter.factory = "capsfilter" ∧
        filter.prop? "caps" = some (.caps e.toCaps) :=
  negotiated_format_is_best VideoDDSpublisher.new "v4l2src" webcamCaps rfl rfl (by decide)
    (by decide) (by decide)

end Voda
